import Mathlib

/-!
Shallow embedding of the gadgetron test-data conversion tooling
(`e2e/gadgetron` and `eminence/gadgetron`) and proofs about it.

The Python modules modelled here are:
* `dl_utils.py` — download, retry, and md5-validation helpers;
* `tc_data_generator.py` — conversion-command and output-signature computation;
* `tc_description_generator.py` — memory-requirement rendering;
* `tc_conversion_orchestrator.py` — the validate / regenerate / persist pipeline.

Hashing (`hashlib.md5`) and the network (`requests.get`) are external to the
repository, so they enter the model as parameters: an arbitrary digest function
`md5hex : String → String` and an attempt-indexed network
`net : Nat → String → Except PyErr Response`.
-/

namespace Tyger

/-- Python exception classes that the modelled code raises or catches.
`requestError` stands for the `requests` transport exceptions
(`ConnectionError`, `Timeout`, `RequestException`); the others are the
built-in exception types appearing in `dl_utils.py`. -/
inductive PyErr where
  | requestError (msg : String)
  | valueError (msg : String)
  | runtimeError (msg : String)
  | fileNotFound (path : String)
  | indexError
deriving DecidableEq, Repr

/-- The tuple caught by `download_with_retry`: exactly the `requests`
transport exceptions. -/
def PyErr.isRequestError : PyErr → Bool
  | .requestError _ => true
  | _ => false

/-- An HTTP response as `requests.get(url, stream=True)` yields it: a status
code and the raw body. -/
structure Response where
  statusCode : Nat
  body : String
deriving DecidableEq, Repr

/-- State touched by `dl_utils.py`: the file system (`path → content`),
the number of network requests issued (`requests.get` invocations), and the
number of `download_with_retry` invocations. -/
structure DlState where
  files : String → Option String
  netCalls : Nat
  fetchCalls : Nat

/-- Model of `download(url, path)` (dl_utils.py lines 13–26).
`requests.get` is entered unconditionally, so the network counter always
increases; only afterwards does the body check `not os.path.exists(path)`
decide whether the body is written.  The status code of the response is
never inspected. -/
def download (net : String → Except PyErr Response) (url path : String)
    (s : DlState) : Except PyErr DlState :=
  match net url with
  | .error e => .error e
  | .ok r =>
    let s1 : DlState := { s with netCalls := s.netCalls + 1 }
    if (s1.files path).isNone then
      .ok { s1 with files := fun p => if p = path then some r.body else s1.files p }
    else
      .ok s1

/-- Trace of a `download_with_retry` run: how many times `download` was
entered and the duration of each `time.sleep` call, in order. -/
structure RetryTrace where
  attempts : Nat
  sleeps : List Nat
deriving DecidableEq, Repr

/-- Outcome of `download_with_retry`: normal return with the final state, or
an exception escaping the function. -/
inductive RetryResult where
  | ok (s : DlState) (t : RetryTrace)
  | err (e : PyErr) (t : RetryTrace)

def RetryResult.trace : RetryResult → RetryTrace
  | .ok _ t => t
  | .err _ t => t

/-- The loop of `download_with_retry` (dl_utils.py lines 29–42).  `retry` is
the loop counter; the network is indexed by the attempt number so that
distinct attempts may behave differently.  A transport error is caught and
retried; raising the `RuntimeError` happens when the incremented counter
reaches the budget, and `time.sleep(1)` runs otherwise.  Any other exception
escapes at once. -/
def downloadWithRetryGo (net : Nat → String → Except PyErr Response)
    (url path : String) (retries : Nat) (retry : Nat) (s : DlState)
    (t : RetryTrace) : RetryResult :=
  if retry < retries then
    match download (net retry) url path s with
    | .ok s1 => .ok s1 { t with attempts := t.attempts + 1 }
    | .error e =>
      if e.isRequestError then
        if retry + 1 ≥ retries then
          .err (.runtimeError ("Failed downloading " ++ url ++ " - retry limit exceeded"))
            { t with attempts := t.attempts + 1 }
        else
          downloadWithRetryGo net url path retries (retry + 1) s
            { attempts := t.attempts + 1, sleeps := t.sleeps ++ [1] }
      else
        .err e { t with attempts := t.attempts + 1 }
  else
    .ok s t
termination_by retries - retry

/-- `download_with_retry(url, path, retries=5)`; the default budget. -/
def defaultRetries : Nat := 5

/-- Model of `download_with_retry` (dl_utils.py lines 29–42): run the loop
from `retry = 0`, counting this as one fetch invocation. -/
def downloadWithRetry (net : Nat → String → Except PyErr Response)
    (url path : String) (retries : Nat) (s : DlState) : RetryResult :=
  downloadWithRetryGo net url path retries 0
    { s with fetchCalls := s.fetchCalls + 1 } { attempts := 0, sleeps := [] }

/-- Model of `validate_md5(path, expected_md5)` (dl_utils.py lines 59–65):
read the file (raising `FileNotFoundError` when absent), compare digests and
raise `ValueError` on mismatch. -/
def validate_md5 (md5hex : String → String) (s : DlState)
    (path expected : String) : Except PyErr Unit :=
  match s.files path with
  | none => .error (.fileNotFound path)
  | some content =>
    if expected = md5hex content then
      .ok ()
    else
      .error (.valueError (path ++ ": md5 mismatch, expected " ++ expected ++
        " got " ++ md5hex content))

/-- Model of `download_and_validate(path, url, expected_md5)`
(dl_utils.py lines 45–56).  Only `ValueError` from the first validation is
caught; the recovery path removes the file, fetches once with the default
retry budget and validates again, letting any second mismatch escape. -/
def download_and_validate (md5hex : String → String)
    (net : Nat → String → Except PyErr Response)
    (path url expected : String) (s : DlState) : Except PyErr DlState :=
  if (s.files path).isSome then
    match validate_md5 md5hex s path expected with
    | .ok _ => .ok s
    | .error (.valueError _) =>
      let s1 : DlState := { s with files := fun p => if p = path then none else s.files p }
      match downloadWithRetry net url path defaultRetries s1 with
      | .ok s2 _ =>
        match validate_md5 md5hex s2 path expected with
        | .ok _ => .ok s2
        | .error e => .error e
      | .err e _ => .error e
    | .error e => .error e
  else
    match downloadWithRetry net url path defaultRetries s with
    | .ok s2 _ =>
      match validate_md5 md5hex s2 path expected with
      | .ok _ => .ok s2
      | .error e => .error e
    | .err e _ => .error e

/-! ### tc_data_generator.py -/

/-- The fields of `ReconstructionSiemensConfig` / `DependencySiemensConfig`
(config_types.py) that the conversion command and signature read. -/
structure SiemensConfig where
  data_file : String
  measurement : String
  parameter_xsl : String
  parameter_xml : String
  data_conversion_flag : String
deriving DecidableEq, Repr

/-- One record of the `md5_info` table: a relative source filename and its
recorded checksum. -/
structure Md5Entry where
  file : String
  md5 : String
deriving DecidableEq, Repr

/-- Model of `_get_md5_entry(file)` (tc_data_generator.py lines 124–126 and,
verbatim the same code, dependency_downloader.py lines 55–57):
`list(filter(lambda info: info['file'] == file, md5_info))[0]['md5']`.
Indexing an empty filter result raises `IndexError`, modelled as `none`;
there is no retry or fallback around the lookup. -/
def get_md5_entry (md5Info : List Md5Entry) (file : String) : Option String :=
  ((md5Info.filter (fun info => info.file == file)).head?).map Md5Entry.md5

/-- Model of `_generate_conversion_command` (tc_data_generator.py
lines 108–119): the exact f-string. -/
def generate_conversion_command (cfg : SiemensConfig)
    (datFilePath outputPath : String) : String :=
  "siemens_to_ismrmrd -X " ++
  "-f " ++ datFilePath ++ " " ++
  "-m " ++ cfg.parameter_xml ++ " " ++
  "-x " ++ cfg.parameter_xsl ++ " " ++
  "-o " ++ outputPath ++ " " ++
  "-z " ++ cfg.measurement ++ " " ++
  cfg.data_conversion_flag ++ " "

/-- Model of `calculate_output_data_signature` (tc_data_generator.py
lines 49–63).  The three `signature.update` calls feed
`sourceChecksum ++ md5hex(command) ++ converterDigest` into one digest, so
the result is `md5hex` of that concatenation; a missing md5 entry is the
`IndexError` of `_get_md5_entry`, modelled as `none`. -/
def calculate_output_data_signature (md5hex : String → String)
    (converterDigest cacheDir : String) (md5Info : List Md5Entry)
    (cfg : SiemensConfig) (outputPath : String) : Option String :=
  let datFilePath := cacheDir ++ "/" ++ cfg.data_file
  let command := generate_conversion_command cfg datFilePath outputPath
  (get_md5_entry md5Info cfg.data_file).map fun sourceChecksum =>
    md5hex (sourceChecksum ++ md5hex command ++ converterDigest)

/-! ### tc_description_generator.py -/

/-- The documented list of known-underestimated cases
(tc_description_generator.py lines 165–166). -/
def high_mem_cases : List String :=
  ["generic_grappa2x1_3d.cfg", "generic_grappa2x2_3d.cfg", "epi_2d.cfg",
   "generic_spirit_cartesian_sampling_spat2.cfg", "generic_rtcine_ai_landmark.cfg"]

/-- Model of `_generate_mem_requirement(case_name, mem_in_mb)`
(tc_description_generator.py lines 159–171):
`math.ceil(mem_in_mb / 1024.0)` on a natural number is `(m + 1023) / 1024`;
cases on `high_mem_cases` get four further gigabytes; the result is the
number rendered in decimal followed by `G`. -/
def generate_mem_requirement (caseName : String) (memInMb : Nat) : String :=
  let memoryReqInGb := (memInMb + 1023) / 1024
  let memoryReqInGb :=
    if caseName ∈ high_mem_cases then memoryReqInGb + 4 else memoryReqInGb
  toString memoryReqInGb ++ "G"

/-- The `resources` fields of the run descriptor that
`_generate_main_runfile` sets (tc_description_generator.py lines 74–84). -/
structure Resources where
  gpu : Option String
  requests_memory : String
  limits_memory : String
deriving DecidableEq, Repr

/-- Model of the resource block of `_generate_main_runfile`
(tc_description_generator.py lines 78–84): the GPU flag, and the same
`memory` string stored as both request and limit. -/
def generate_main_resources (caseName : String) (gpuSupport : Bool)
    (systemMemory : Nat) : Resources :=
  let memory := generate_mem_requirement caseName systemMemory
  { gpu := if gpuSupport then some "1" else none
    requests_memory := memory
    limits_memory := memory }

/-! ### tc_conversion_orchestrator.py -/

/-- One record of `cases_description['cases']` as `_generate_test_case`
builds it (tc_conversion_orchestrator.py lines 106–110). -/
structure CaseMeta where
  name : String
  case_file_path : String
  file_dependencies : List (String × String)
deriving DecidableEq, Repr

/-- A `GadgetronTestCase` as the orchestrator sees it; of its fields only
`name` steers the orchestration, the rest is consumed opaquely by the
validator and the generators, which enter the model as parameters. -/
structure GadgetronTestCase where
  name : String
deriving DecidableEq, Repr

/-- Orchestrator state: the data directory, the in-memory
`cases_description['cases']` list, the set of case directories present on
disk, and the content written to `testdata.json` (none before the write). -/
structure OrchState where
  dataDir : String
  casesDescription : List CaseMeta
  dirs : List String
  written : Option String

/-- Model of `_generate_case_dir` (tc_conversion_orchestrator.py
lines 116–118): drop the `.cfg` suffix and join under the data dir. -/
def generate_case_dir (dataDir : String) (c : GadgetronTestCase) : String :=
  dataDir ++ "/" ++ (c.name.replace ".cfg" "")

/-- Model of `_validate_existing_cases` (tc_conversion_orchestrator.py
lines 61–83).  The loop over completed futures appends each case whose
validation task raised to `cases_failed_validation` and deletes its case
directory when present; its net effect on the state is captured here, with
the failed list kept in submission order (the membership facts proved below
do not depend on completion order). -/
def validate_existing_cases (validate : GadgetronTestCase → Except String Unit)
    (dataDir : String) (dirs : List String) (cases : List GadgetronTestCase) :
    List GadgetronTestCase × List String :=
  let failed := cases.filter fun c =>
    match validate c with
    | .ok _ => false
    | .error _ => true
  (failed, dirs.filter fun d => failed.all fun c => generate_case_dir dataDir c != d)

/-- Model of `_convert_cases` (tc_conversion_orchestrator.py lines 85–100):
every successfully generated case record is appended to the description;
if any task raised, a `RuntimeError` is raised after the loop (the appended
records survive only in memory, the exception escapes). -/
def convert_cases (generate : GadgetronTestCase → Except String CaseMeta)
    (desc : List CaseMeta) (cases : List GadgetronTestCase) :
    Except String (List CaseMeta) :=
  let desc1 := desc ++ cases.filterMap fun c => (generate c).toOption
  if cases.any fun c => (generate c).toOption.isNone then
    .error "Failed to convert all test cases"
  else
    .ok desc1

/-- The comparison `sorted(cases, key=lambda case: case['name'])` sorts by:
record order by case name. -/
def caseNameLe (a b : CaseMeta) : Prop := a.name ≤ b.name

instance : DecidableRel caseNameLe :=
  fun a b => inferInstanceAs (Decidable (a.name ≤ b.name))

instance : IsTotal CaseMeta caseNameLe := ⟨fun a b => le_total a.name b.name⟩

instance : IsTrans CaseMeta caseNameLe := ⟨fun _ _ _ hab hbc => le_trans hab hbc⟩

/-- Sorting step of `_write_testdata_json`
(tc_conversion_orchestrator.py line 124):
`sorted(cases, key=lambda case: case['name'])` — a stable sort by name. -/
def sortCasesByName (l : List CaseMeta) : List CaseMeta :=
  l.insertionSort caseNameLe

/-- Rendering of one dependency entry of the JSON manifest. -/
def serializeDeps : List (String × String) → String
  | [] => ""
  | (p, h) :: rest => "\"" ++ p ++ "\": \"" ++ h ++ "\", " ++ serializeDeps rest

/-- Rendering of one case record of the JSON manifest, keys in the fixed
order `_generate_test_case` inserts them. -/
def serializeCaseMeta (m : CaseMeta) : String :=
  "\x7b\"name\": \"" ++ m.name ++ "\", \"case_file_path\": \"" ++
    m.case_file_path ++ "\", \"file_dependencies\": \x7b" ++
    serializeDeps m.file_dependencies ++ "\x7d\x7d"

/-- Rendering of the case list. -/
def serializeCases : List CaseMeta → String
  | [] => ""
  | m :: rest => serializeCaseMeta m ++ ", " ++ serializeCases rest

/-- Byte-level model of `json.dump(cases_description, file, indent=4)`
(tc_conversion_orchestrator.py line 128): a deterministic rendering of the
record list with fixed key order. -/
def serializeManifest (l : List CaseMeta) : String :=
  "\x7b\"cases\": [" ++ serializeCases l ++ "]\x7d"

/-- Model of `_write_testdata_json` (tc_conversion_orchestrator.py
lines 123–128): sort the description by case name, then write it out. -/
def write_testdata_json (s : OrchState) : OrchState :=
  let sorted := sortCasesByName s.casesDescription
  { s with casesDescription := sorted, written := some (serializeManifest sorted) }

/-- Lines 30–44 of `orchestrate_conversion`: split the requested cases by
presence of their name in the manifest; when some existing cases must be
validated, drop each validation failure from the manifest (its directory
already deleted by `_validate_existing_cases`) and queue it for download.
Yields the new description, the surviving directories, and
`cases_to_download`. -/
def orchestrate_step3 (validate : GadgetronTestCase → Except String Unit)
    (s : OrchState) (cases : List GadgetronTestCase) :
    List CaseMeta × List String × List GadgetronTestCase :=
  let existingNames := s.casesDescription.map CaseMeta.name
  let casesToValidate := cases.filter fun c => decide (c.name ∈ existingNames)
  let casesToDownload0 := cases.filter fun c => !decide (c.name ∈ existingNames)
  if casesToValidate.isEmpty then
    (s.casesDescription, s.dirs, casesToDownload0)
  else
    let failed := (validate_existing_cases validate s.dataDir s.dirs casesToValidate).1
    let dirs1 := (validate_existing_cases validate s.dataDir s.dirs casesToValidate).2
    let failingNames := failed.map GadgetronTestCase.name
    (s.casesDescription.filter (fun m => !decide (m.name ∈ failingNames)),
      dirs1, casesToDownload0 ++ failed)

/-- Model of `orchestrate_conversion` (tc_conversion_orchestrator.py
lines 30–49).  Step numbering follows the spec: split the requested cases
by presence in the manifest; validate the existing ones, dropping failures
from the manifest and queueing them for regeneration; download and convert
the queued cases (either phase raising a `RuntimeError` that escapes); and
finally write `testdata.json`.  `downloadOk` abstracts the outcome of
`download_dependencies`, which raises when any dependency fails. -/
def orchestrate_conversion (validate : GadgetronTestCase → Except String Unit)
    (generate : GadgetronTestCase → Except String CaseMeta) (downloadOk : Bool)
    (s : OrchState) (cases : List GadgetronTestCase) : Except String OrchState :=
  let step3 := orchestrate_step3 validate s cases
  let desc := step3.1
  let dirs1 := step3.2.1
  let casesToDownload := step3.2.2
  if casesToDownload.isEmpty then
    .ok (write_testdata_json { s with casesDescription := desc, dirs := dirs1 })
  else if downloadOk then
    match convert_cases generate desc casesToDownload with
    | .ok desc1 =>
      .ok (write_testdata_json { s with casesDescription := desc1, dirs := dirs1 })
    | .error e => .error e
  else
    .error "Failed to download all dependencies"

/-! ## Concrete instances used by witnesses and counterexamples -/

/-- A file system holding one file, `"dest"`, with content `"old"`. -/
def fsWithDest : DlState :=
  { files := fun p => if p = "dest" then some "old" else none
    netCalls := 0
    fetchCalls := 0 }

/-- The empty file system. -/
def fsEmpty : DlState :=
  { files := fun _ => none
    netCalls := 0
    fetchCalls := 0 }

/-- A network that always answers 200 with body `"body"`. -/
def netOk : String → Except PyErr Response :=
  fun _ => .ok { statusCode := 200, body := "body" }

/-- An attempt-indexed network that always answers 200 with body `"body"`. -/
def netOkIdx : Nat → String → Except PyErr Response :=
  fun _ => netOk

/-- An attempt-indexed network on which every attempt fails with a
transport error. -/
def netFailIdx : Nat → String → Except PyErr Response :=
  fun _ _ => .error (.requestError "boom")

/-- A sample md5 table with two entries. -/
def sampleMd5Info : List Md5Entry :=
  [{ file := "a.dat", md5 := "aaaa" }, { file := "b.dat", md5 := "bbbb" }]

/-- The same md5 table with its entries in the other order. -/
def sampleMd5Info2 : List Md5Entry :=
  [{ file := "b.dat", md5 := "bbbb" }, { file := "a.dat", md5 := "aaaa" }]

/-- A sample Siemens conversion config reading `a.dat`. -/
def sampleSiemensConfig : SiemensConfig :=
  { data_file := "a.dat"
    measurement := "1"
    parameter_xsl := "IsmrmrdParameterMap_Siemens.xsl"
    parameter_xml := "IsmrmrdParameterMap_Siemens.xml"
    data_conversion_flag := "" }

/-- The state `download_and_validate` reaches on its corruption-recovery
path: the destination deleted, then re-fetched once (one retry-wrapper
invocation, one network request, the response body written). -/
def refetchedState (s : DlState) (path : String) (r : Response) : DlState :=
  { s with fetchCalls := s.fetchCalls + 1
           netCalls := s.netCalls + 1
           files := fun p => if p = path then some r.body
                             else if p = path then none else s.files p }

/-- The state `download_and_validate` reaches when the destination was
absent: fetched once, the response body written. -/
def fetchedState (s : DlState) (path : String) (r : Response) : DlState :=
  { s with fetchCalls := s.fetchCalls + 1
           netCalls := s.netCalls + 1
           files := fun p => if p = path then some r.body else s.files p }

/-- An attempt-indexed network failing with a non-transport exception. -/
def netOtherIdx : Nat → String → Except PyErr Response :=
  fun _ _ => .error (.valueError "denied")

/-- Requested cases for the orchestrator fixtures. -/
def caseA : GadgetronTestCase := { name := "a.cfg" }

def caseB : GadgetronTestCase := { name := "b.cfg" }

def caseC : GadgetronTestCase := { name := "c.cfg" }

/-- Manifest records for the orchestrator fixtures. -/
def metaA : CaseMeta :=
  { name := "a.cfg", case_file_path := "a/case.yml"
    file_dependencies := [("a/main.h5", "ha")] }

def metaB : CaseMeta :=
  { name := "b.cfg", case_file_path := "b/case.yml", file_dependencies := [] }

/-- A validator failing exactly on `a.cfg`. -/
def valFailA : GadgetronTestCase → Except String Unit :=
  fun c => if c.name = "a.cfg" then .error "bad checksum" else .ok ()

/-- A validator succeeding on every case. -/
def valOk : GadgetronTestCase → Except String Unit := fun _ => .ok ()

/-- A generator succeeding on every case with a fresh record. -/
def genOk : GadgetronTestCase → Except String CaseMeta :=
  fun c => .ok { name := c.name, case_file_path := c.name ++ "/case.yml"
                 file_dependencies := [] }

/-- A generator raising on every case. -/
def genFail : GadgetronTestCase → Except String CaseMeta :=
  fun _ => .error "conversion raised"

/-- A manifest state holding records and directories for both cases. -/
def orchS : OrchState :=
  { dataDir := "data", casesDescription := [metaA, metaB]
    dirs := ["data/a", "data/b"], written := none }

/-- The same state with the records in the other order. -/
def orchSRev : OrchState :=
  { dataDir := "data", casesDescription := [metaB, metaA]
    dirs := ["data/a", "data/b"], written := none }

/-- The empty manifest state. -/
def orchEmpty : OrchState :=
  { dataDir := "data", casesDescription := [], dirs := [], written := none }

/-! ## Theorems -/

/-- **C3** — For every conversion config and output path, the composite
signature is the digest of the concatenation, in this fixed order, of the
recorded source checksum, the digest of the exact conversion command string,
and the converter binary checksum; and any two signature computations that
agree on those three inputs agree, whatever else (md5 table, cache dir,
output path, config) differs. -/
theorem calculate_output_data_signature_spec (md5hex : String → String)
    (conv1 conv2 cache1 cache2 : String) (info1 info2 : List Md5Entry)
    (cfg1 cfg2 : SiemensConfig) (out1 out2 : String) (checksum : String)
    (h1 : get_md5_entry info1 cfg1.data_file = some checksum) :
    calculate_output_data_signature md5hex conv1 cache1 info1 cfg1 out1 =
      some (md5hex (checksum ++
        md5hex (generate_conversion_command cfg1 (cache1 ++ "/" ++ cfg1.data_file) out1) ++
        conv1)) ∧
    (get_md5_entry info2 cfg2.data_file = some checksum →
      generate_conversion_command cfg2 (cache2 ++ "/" ++ cfg2.data_file) out2 =
        generate_conversion_command cfg1 (cache1 ++ "/" ++ cfg1.data_file) out1 →
      conv2 = conv1 →
      calculate_output_data_signature md5hex conv2 cache2 info2 cfg2 out2 =
        calculate_output_data_signature md5hex conv1 cache1 info1 cfg1 out1) := by
  constructor
  · simp [calculate_output_data_signature, h1]
  · intro h2 hcmd hconv
    simp [calculate_output_data_signature, h1, h2, hcmd, hconv]

/-- Witness for C3 at a concrete config and table: the signature has the
stated shape, and re-ordering the table (same recorded checksum) leaves the
signature unchanged. -/
theorem calculate_output_data_signature_spec_witness :
    calculate_output_data_signature (fun s => s) "cvcv" "cache" sampleMd5Info
      sampleSiemensConfig "out.h5" =
      some ("aaaa" ++
        generate_conversion_command sampleSiemensConfig ("cache" ++ "/" ++ "a.dat") "out.h5" ++
        "cvcv") ∧
    calculate_output_data_signature (fun s => s) "cvcv" "cache" sampleMd5Info2
      sampleSiemensConfig "out.h5" =
      calculate_output_data_signature (fun s => s) "cvcv" "cache" sampleMd5Info
        sampleSiemensConfig "out.h5" :=
  ⟨(calculate_output_data_signature_spec (fun s => s) "cvcv" "cvcv" "cache" "cache"
      sampleMd5Info sampleMd5Info sampleSiemensConfig sampleSiemensConfig
      "out.h5" "out.h5" "aaaa" (by decide)).1,
   (calculate_output_data_signature_spec (fun s => s) "cvcv" "cvcv" "cache" "cache"
      sampleMd5Info sampleMd5Info2 sampleSiemensConfig sampleSiemensConfig
      "out.h5" "out.h5" "aaaa" (by decide)).2 (by decide) rfl rfl⟩

/-- **C8** — A checksum lookup for a filename absent from the table yields
the NotFound outcome (the `IndexError` of indexing an empty filter result),
with no retry path in the function; a lookup for a filename present in the
table (whose filenames are distinct) yields that entry's recorded
checksum. -/
theorem get_md5_entry_spec (md5Info : List Md5Entry) (file : String)
    (e : Md5Entry) :
    ((∀ i ∈ md5Info, i.file ≠ file) → get_md5_entry md5Info file = none) ∧
    (e ∈ md5Info → e.file = file → (md5Info.map Md5Entry.file).Nodup →
      get_md5_entry md5Info file = some e.md5) := by
  constructor
  · intro habs
    have hfil : md5Info.filter (fun info => info.file == file) = [] := by
      simp only [List.filter_eq_nil_iff, beq_iff_eq]
      exact habs
    simp [get_md5_entry, hfil]
  · intro hmem hfile hnodup
    induction md5Info with
    | nil => cases hmem
    | cons i rest ih =>
      rcases List.mem_cons.mp hmem with rfl | hrest
      · simp [get_md5_entry, List.filter_cons, hfile]
      · have hne : i.file ≠ file := by
          intro hcontra
          have : e.file ∈ rest.map Md5Entry.file := List.mem_map_of_mem _ hrest
          rw [List.map_cons] at hnodup
          apply (List.nodup_cons.mp hnodup).1
          rw [hcontra, ← hfile]
          exact this
        have : (i.file == file) = false := by simp [hne]
        simpa [get_md5_entry, List.filter_cons, this] using
          ih hrest (List.nodup_cons.mp (by rw [List.map_cons] at hnodup; exact hnodup)).2

/-- Witness for C8: absent filename gives `none`, present filename gives its
recorded checksum. -/
theorem get_md5_entry_spec_witness :
    get_md5_entry sampleMd5Info "missing.dat" = none ∧
    get_md5_entry sampleMd5Info "b.dat" = some "bbbb" := by
  constructor
  · exact (get_md5_entry_spec sampleMd5Info "missing.dat"
      { file := "b.dat", md5 := "bbbb" }).1 (by decide)
  · exact (get_md5_entry_spec sampleMd5Info "b.dat"
      { file := "b.dat", md5 := "bbbb" }).2 (by decide) (by decide) (by decide)

/-- **C9** — The rendered memory request and limit are the same string: the
declared megabytes rounded up to whole gigabytes (`base` satisfies the
defining inequalities of `ceil(m / 1024)`), plus exactly 4 further
gigabytes if and only if the case is on the documented high-memory list,
rendered as the decimal number followed by `G`. -/
theorem generate_main_resources_spec (caseName : String) (gpuSupport : Bool)
    (m : Nat) :
    (generate_main_resources caseName gpuSupport m).requests_memory =
      (generate_main_resources caseName gpuSupport m).limits_memory ∧
    (generate_main_resources caseName gpuSupport m).requests_memory =
      generate_mem_requirement caseName m ∧
    m ≤ 1024 * ((m + 1023) / 1024) ∧
    1024 * ((m + 1023) / 1024) < m + 1024 ∧
    (caseName ∈ high_mem_cases →
      generate_mem_requirement caseName m = toString ((m + 1023) / 1024 + 4) ++ "G") ∧
    (caseName ∉ high_mem_cases →
      generate_mem_requirement caseName m = toString ((m + 1023) / 1024) ++ "G") := by
  refine ⟨rfl, rfl, by omega, by omega, ?_, ?_⟩
  · intro hmem
    simp [generate_mem_requirement, hmem]
  · intro hmem
    simp [generate_mem_requirement, hmem]

/-- Witness for C9: `epi_2d.cfg` is on the high-memory list, declares
3000 MB, and gets `ceil(3000/1024) + 4 = 7` gigabytes as both request and
limit. -/
theorem generate_main_resources_spec_witness :
    (generate_main_resources "epi_2d.cfg" true 3000).requests_memory =
      (generate_main_resources "epi_2d.cfg" true 3000).limits_memory ∧
    generate_mem_requirement "epi_2d.cfg" 3000 =
      toString ((3000 + 1023) / 1024 + 4) ++ "G" ∧
    generate_mem_requirement "other.cfg" 3000 =
      toString ((3000 + 1023) / 1024) ++ "G" :=
  ⟨(generate_main_resources_spec "epi_2d.cfg" true 3000).1,
   (generate_main_resources_spec "epi_2d.cfg" true 3000).2.2.2.2.1 (by decide),
   (generate_main_resources_spec "other.cfg" false 3000).2.2.2.2.2 (by decide)⟩

/-- **C10** — When the destination does not exist, `download` never examines
the status code: two responses with the same body but different status codes
produce identical outcomes, and a response with any status code (404
included) is treated as success, its body written to the destination, with
checksum validation elsewhere as the only guard; only a transport-level
failure of `requests.get` raises. -/
theorem download_ignores_status (status1 status2 : Nat) (body : String)
    (url path : String) (s : DlState) (e : PyErr) :
    (download (fun _ => .ok { statusCode := status1, body := body }) url path s =
      download (fun _ => .ok { statusCode := status2, body := body }) url path s) ∧
    (s.files path = none →
      download (fun _ => .ok { statusCode := status1, body := body }) url path s =
        .ok { s with netCalls := s.netCalls + 1,
                     files := fun p => if p = path then some body else s.files p }) ∧
    (download (fun _ => .error e) url path s = .error e) := by
  refine ⟨rfl, ?_, rfl⟩
  intro h
  simp [download, h]

/-- Witness for C10: a 404 response body lands in the (previously absent)
destination file. -/
theorem download_ignores_status_witness :
    download (fun _ => .ok { statusCode := 404, body := "body" }) "http://u" "dest" fsEmpty =
      .ok { fsEmpty with netCalls := fsEmpty.netCalls + 1,
                         files := fun p => if p = "dest" then some "body" else fsEmpty.files p } :=
  (download_ignores_status 404 404 "body" "http://u" "dest" fsEmpty .indexError).2.1 rfl

/-! ### Helper lemmas about the download functions -/

/-- On a successful request with the destination absent, `download` writes
the body and counts one network call. -/
theorem download_write_of_absent (net : String → Except PyErr Response)
    (url path : String) (s : DlState) (r : Response)
    (hr : net url = .ok r) (h : s.files path = none) :
    download net url path s =
      .ok { s with netCalls := s.netCalls + 1,
                   files := fun p => if p = path then some r.body else s.files p } := by
  simp [download, hr, h]

/-- On a successful request with the destination present, `download` leaves
the file map untouched and counts one network call. -/
theorem download_skip_of_present (net : String → Except PyErr Response)
    (url path : String) (s : DlState) (r : Response)
    (hr : net url = .ok r) (h : (s.files path).isSome) :
    download net url path s = .ok { s with netCalls := s.netCalls + 1 } := by
  have hfalse : (s.files path).isNone = false := by
    cases hv : s.files path
    · rw [hv] at h; cases h
    · rfl
  simp [download, hr, hfalse]

/-- A successful `download` leaves the destination occupied. -/
theorem download_ok_files_isSome (net : String → Except PyErr Response)
    (url path : String) (s u : DlState) (r : Response)
    (hr : net url = .ok r) (hok : download net url path s = .ok u) :
    (u.files path).isSome := by
  simp only [download, hr] at hok
  split at hok
  · cases hok
    simp
  · next hcond =>
    cases hok
    simpa [Option.isNone_iff_eq_none, ← Option.ne_none_iff_isSome] using hcond

/-- Unfolding of one iteration of the retry loop on a successful attempt. -/
theorem downloadWithRetryGo_step_ok (net : Nat → String → Except PyErr Response)
    (url path : String) (retries retry : Nat) (s s1 : DlState) (t : RetryTrace)
    (hk : retry < retries) (hok : download (net retry) url path s = .ok s1) :
    downloadWithRetryGo net url path retries retry s t =
      .ok s1 { t with attempts := t.attempts + 1 } := by
  rw [downloadWithRetryGo]
  simp [hk, hok]

/-- **C4 counterexample** — With the destination file already present,
`download` still issues a network request: the request counter strictly
increases, refuting the zero-network-calls reading. -/
theorem download_existing_counterexample :
    download netOk "http://u" "dest" fsWithDest =
      .ok { fsWithDest with netCalls := fsWithDest.netCalls + 1 } ∧
    fsWithDest.netCalls + 1 ≠ fsWithDest.netCalls := by
  refine ⟨?_, by omega⟩
  apply download_skip_of_present
  · rfl
  · rfl

/-- **C4 (amended)** — If a file already exists at the destination, `download`
performs exactly one network request but leaves the whole file map (hence the
destination file) unchanged; consequently a second call after a successful
first call also leaves the files unchanged, adding only one further network
request. -/
theorem download_existing_file_unchanged (net : String → Except PyErr Response)
    (url path : String) (s u : DlState) (r : Response) (hr : net url = .ok r) :
    ((s.files path).isSome →
      download net url path s = .ok { s with netCalls := s.netCalls + 1 }) ∧
    (download net url path s = .ok u →
      download net url path u = .ok { u with netCalls := u.netCalls + 1 }) := by
  constructor
  · intro h
    exact download_skip_of_present net url path s r hr h
  · intro hok
    exact download_skip_of_present net url path u r hr
      (download_ok_files_isSome net url path s u r hr hok)

/-- Witness for C4 (amended): with `"dest"` present, the call returns the
same file map with only the request counter bumped; and after a first
successful fetch into an empty file system, the second fetch changes only
the counter. -/
theorem download_existing_file_unchanged_witness :
    download netOk "http://u" "dest" fsWithDest =
      .ok { fsWithDest with netCalls := fsWithDest.netCalls + 1 } ∧
    download netOk "http://u" "dest"
        { fsEmpty with netCalls := fsEmpty.netCalls + 1
                       files := fun p => if p = "dest" then some "body" else fsEmpty.files p } =
      .ok { fsEmpty with
              netCalls := fsEmpty.netCalls + 1 + 1
              files := fun p => if p = "dest" then some "body" else fsEmpty.files p } :=
  ⟨(download_existing_file_unchanged netOk "http://u" "dest" fsWithDest fsWithDest
      { statusCode := 200, body := "body" } rfl).1 rfl,
   (download_existing_file_unchanged netOk "http://u" "dest" fsEmpty
      { fsEmpty with netCalls := fsEmpty.netCalls + 1
                     files := fun p => if p = "dest" then some "body" else fsEmpty.files p }
      { statusCode := 200, body := "body" } rfl).2 rfl⟩

/-- When the first attempt of the retry loop succeeds on an absent
destination, the wrapper returns after one attempt, one network request and
no sleep, the body written. -/
theorem downloadWithRetry_first_ok_absent (net : Nat → String → Except PyErr Response)
    (url path : String) (retries : Nat) (s : DlState) (r : Response)
    (hret : 0 < retries) (hr : net 0 url = .ok r) (habs : s.files path = none) :
    downloadWithRetry net url path retries s =
      .ok (fetchedState s path r) { attempts := 1, sleeps := [] } := by
  unfold downloadWithRetry
  have habs2 : ({ s with fetchCalls := s.fetchCalls + 1 } : DlState).files path = none := habs
  rw [downloadWithRetryGo_step_ok net url path retries 0
    { s with fetchCalls := s.fetchCalls + 1 } _ { attempts := 0, sleeps := [] } hret
    (download_write_of_absent (net 0) url path _ r hr habs2)]
  rfl

/-- **C5** — `download_and_validate`: a present file with matching checksum
causes no fetch and no change; a present file with mismatching checksum is
deleted, re-fetched through exactly one retry-wrapper invocation and
re-validated, a mismatch after that single re-fetch raising the fatal
`ValueError`; an absent file is fetched and validated once with no
delete-and-refetch cycle. -/
theorem download_and_validate_spec (md5hex : String → String)
    (net : Nat → String → Except PyErr Response) (path url expected : String)
    (s : DlState) (c : String) (r : Response) :
    (s.files path = some c → expected = md5hex c →
      download_and_validate md5hex net path url expected s = .ok s) ∧
    (s.files path = some c → expected ≠ md5hex c → net 0 url = .ok r →
      download_and_validate md5hex net path url expected s =
        (if expected = md5hex r.body
         then .ok (refetchedState s path r)
         else .error (.valueError (path ++ ": md5 mismatch, expected " ++ expected ++
           " got " ++ md5hex r.body))) ∧
      (refetchedState s path r).files path = some r.body ∧
      (refetchedState s path r).fetchCalls = s.fetchCalls + 1) ∧
    (s.files path = none → net 0 url = .ok r →
      download_and_validate md5hex net path url expected s =
        (if expected = md5hex r.body
         then .ok (fetchedState s path r)
         else .error (.valueError (path ++ ": md5 mismatch, expected " ++ expected ++
           " got " ++ md5hex r.body))) ∧
      (fetchedState s path r).files path = some r.body ∧
      (fetchedState s path r).fetchCalls = s.fetchCalls + 1) := by
  refine ⟨?_, ?_, ?_⟩
  · intro hc hmatch
    simp [download_and_validate, hc, validate_md5, hmatch]
  · intro hc hmis hr
    refine ⟨?_, by simp [refetchedState], rfl⟩
    have hdel : downloadWithRetry net url path defaultRetries
        { s with files := fun p => if p = path then none else s.files p } =
        .ok (fetchedState { s with files := fun p => if p = path then none else s.files p }
          path r) { attempts := 1, sleeps := [] } :=
      downloadWithRetry_first_ok_absent net url path defaultRetries _ r
        (by decide) hr (by simp)
    have hstate : fetchedState { s with files := fun p => if p = path then none else s.files p }
        path r = refetchedState s path r := rfl
    rw [hstate] at hdel
    simp only [download_and_validate, hc, validate_md5, hmis, hdel, refetchedState]
    by_cases hb : expected = md5hex r.body <;> simp [hb]
  · intro habs hr
    refine ⟨?_, by simp [fetchedState], rfl⟩
    have hdl : downloadWithRetry net url path defaultRetries s =
        .ok (fetchedState s path r) { attempts := 1, sleeps := [] } :=
      downloadWithRetry_first_ok_absent net url path defaultRetries s r
        (by decide) hr habs
    simp only [download_and_validate, habs, hdl, validate_md5, fetchedState]
    by_cases hb : expected = md5hex r.body <;> simp [hb]

/-- Witness for C5: a matching present file is returned unchanged with no
fetch, and a mismatching present file is re-fetched once, the new body
matching. -/
theorem download_and_validate_spec_witness :
    download_and_validate (fun x => x) netOkIdx "dest" "http://u" "old" fsWithDest =
      .ok fsWithDest ∧
    download_and_validate (fun x => x) netOkIdx "dest" "http://u" "body" fsWithDest =
      .ok (refetchedState fsWithDest "dest" { statusCode := 200, body := "body" }) ∧
    (refetchedState fsWithDest "dest" { statusCode := 200, body := "body" }).fetchCalls =
      fsWithDest.fetchCalls + 1 ∧
    download_and_validate (fun x => x) netOkIdx "dest" "http://u" "body" fsEmpty =
      .ok (fetchedState fsEmpty "dest" { statusCode := 200, body := "body" }) := by
  have h := download_and_validate_spec (fun x => x) netOkIdx "dest" "http://u" "old"
    fsWithDest "old" { statusCode := 200, body := "body" }
  have h2 := download_and_validate_spec (fun x => x) netOkIdx "dest" "http://u" "body"
    fsWithDest "old" { statusCode := 200, body := "body" }
  have h3 := download_and_validate_spec (fun x => x) netOkIdx "dest" "http://u" "body"
    fsEmpty "old" { statusCode := 200, body := "body" }
  refine ⟨h.1 rfl rfl, ?_, (h2.2.1 rfl (by decide) rfl).2.2, ?_⟩
  · have := (h2.2.1 rfl (by decide) rfl).1
    simpa using this
  · have := (h3.2.2 rfl rfl).1
    simpa using this

/-- The retry loop enters `download` at most `retries - retry` further
times. -/
theorem downloadWithRetryGo_attempts_le (net : Nat → String → Except PyErr Response)
    (url path : String) (retries : Nat) :
    ∀ (n retry : Nat) (s : DlState) (t : RetryTrace), retries - retry = n →
      (downloadWithRetryGo net url path retries retry s t).trace.attempts ≤
        t.attempts + n := by
  intro n
  induction n with
  | zero =>
    intro retry s t h
    have hnlt : ¬ retry < retries := by omega
    rw [downloadWithRetryGo, if_neg hnlt]
    simp [RetryResult.trace]
  | succ n ih =>
    intro retry s t h
    have hlt : retry < retries := by omega
    rw [downloadWithRetryGo, if_pos hlt]
    cases hd : download (net retry) url path s with
    | ok s1 =>
      simp only [RetryResult.trace]
      omega
    | error e =>
      by_cases hre : e.isRequestError = true
      · simp only [hre, if_true]
        by_cases hge : retry + 1 ≥ retries
        · rw [if_pos hge]
          simp only [RetryResult.trace]
          omega
        · rw [if_neg hge]
          have := ih (retry + 1) s
            { attempts := t.attempts + 1, sleeps := t.sleeps ++ [1] } (by omega)
          simp only [RetryResult.trace] at this ⊢
          omega
      · simp only [hre, Bool.false_eq_true, if_false, RetryResult.trace]
        omega

/-- Every sleep the retry loop adds lasts exactly one second. -/
theorem downloadWithRetryGo_sleeps (net : Nat → String → Except PyErr Response)
    (url path : String) (retries : Nat) :
    ∀ (n retry : Nat) (s : DlState) (t : RetryTrace), retries - retry = n →
      ∀ d ∈ (downloadWithRetryGo net url path retries retry s t).trace.sleeps,
        d ∈ t.sleeps ∨ d = 1 := by
  intro n
  induction n with
  | zero =>
    intro retry s t h d hd
    rw [downloadWithRetryGo, if_neg (by omega : ¬ retry < retries)] at hd
    exact Or.inl hd
  | succ n ih =>
    intro retry s t h d hd
    rw [downloadWithRetryGo, if_pos (by omega : retry < retries)] at hd
    cases hdl : download (net retry) url path s with
    | ok s1 =>
      rw [hdl] at hd
      exact Or.inl hd
    | error e =>
      rw [hdl] at hd
      by_cases hre : e.isRequestError = true
      · simp only [hre, if_true] at hd
        by_cases hge : retry + 1 ≥ retries
        · rw [if_pos hge] at hd
          exact Or.inl hd
        · rw [if_neg hge] at hd
          rcases ih (retry + 1) s
              { attempts := t.attempts + 1, sleeps := t.sleeps ++ [1] } (by omega) d hd with
            hmem | hone
          · rcases List.mem_append.mp hmem with hl | hr
            · exact Or.inl hl
            · simp only [List.mem_singleton] at hr
              exact Or.inr hr
          · exact Or.inr hone
      · simp only [hre, if_false] at hd
        exact Or.inl hd

/-- If every remaining attempt fails with a transport error, the loop makes
all of them, sleeps one second between consecutive attempts, and raises the
retry-limit `RuntimeError` naming the url. -/
theorem downloadWithRetryGo_exhaust (net : Nat → String → Except PyErr Response)
    (url path : String) (retries : Nat) :
    ∀ (n retry : Nat) (s : DlState) (t : RetryTrace), retry + n = retries → 0 < n →
      (∀ i, retry ≤ i → i < retries → ∃ m, net i url = .error (.requestError m)) →
      downloadWithRetryGo net url path retries retry s t =
        .err (.runtimeError ("Failed downloading " ++ url ++ " - retry limit exceeded"))
          { attempts := t.attempts + n, sleeps := t.sleeps ++ List.replicate (n - 1) 1 } := by
  intro n
  induction n with
  | zero =>
    intro retry s t h hpos hfail
    omega
  | succ n ih =>
    intro retry s t h hpos hfail
    have hlt : retry < retries := by omega
    obtain ⟨m, hm⟩ := hfail retry (le_refl retry) hlt
    have hdl : download (net retry) url path s = .error (.requestError m) := by
      simp [download, hm]
    rw [downloadWithRetryGo, if_pos hlt, hdl]
    simp only [PyErr.isRequestError, if_true]
    by_cases hge : retry + 1 ≥ retries
    · have hn0 : n = 0 := by omega
      rw [if_pos hge]
      subst hn0
      simp
    · rw [if_neg hge]
      have hrec := ih (retry + 1) s
        { attempts := t.attempts + 1, sleeps := t.sleeps ++ [1] } (by omega) (by omega)
        (fun i hi hi2 => hfail i (by omega) hi2)
      rw [hrec]
      have hn1 : 0 < n := by omega
      have harith : t.attempts + 1 + n = t.attempts + (n + 1) := by omega
      have hlist : (t.sleeps ++ [1]) ++ List.replicate (n - 1) 1 =
          t.sleeps ++ List.replicate n 1 := by
        rw [List.append_assoc]
        congr 1
        have : n = (n - 1) + 1 := by omega
        rw [this, List.replicate_succ]
        simp
      rw [harith, hlist]
      simp

/-- If the first `j` remaining attempts fail with transport errors and the
next attempt raises a non-transport exception, that exception escapes at
once, after exactly `j + 1` attempts and `j` one-second sleeps. -/
theorem downloadWithRetryGo_propagate (net : Nat → String → Except PyErr Response)
    (url path : String) (retries : Nat) (e : PyErr) :
    ∀ (j retry : Nat) (s : DlState) (t : RetryTrace), retry + j < retries →
      (∀ i, retry ≤ i → i < retry + j → ∃ m, net i url = .error (.requestError m)) →
      net (retry + j) url = .error e → e.isRequestError = false →
      downloadWithRetryGo net url path retries retry s t =
        .err e { attempts := t.attempts + j + 1, sleeps := t.sleeps ++ List.replicate j 1 } := by
  intro j
  induction j with
  | zero =>
    intro retry s t hlt hfail hk hnre
    have hdl : download (net retry) url path s = .error e := by
      simp only [Nat.add_zero] at hk
      simp [download, hk]
    rw [downloadWithRetryGo, if_pos (by omega : retry < retries), hdl]
    simp [hnre]
  | succ j ih =>
    intro retry s t hlt hfail hk hnre
    obtain ⟨m, hm⟩ := hfail retry (le_refl retry) (by omega)
    have hdl : download (net retry) url path s = .error (.requestError m) := by
      simp [download, hm]
    rw [downloadWithRetryGo, if_pos (by omega : retry < retries), hdl]
    simp only [PyErr.isRequestError, if_true]
    rw [if_neg (by omega : ¬ retry + 1 ≥ retries)]
    have hrec := ih (retry + 1) s
      { attempts := t.attempts + 1, sleeps := t.sleeps ++ [1] } (by omega)
      (fun i hi hi2 => hfail i (by omega) (by omega))
      (by rw [show retry + 1 + j = retry + (j + 1) by omega]; exact hk) hnre
    rw [hrec]
    have harith : t.attempts + 1 + j + 1 = t.attempts + (j + 1) + 1 := by omega
    have hlist : (t.sleeps ++ [1]) ++ List.replicate j 1 =
        t.sleeps ++ List.replicate (j + 1) 1 := by
      rw [List.append_assoc]
      congr 1
    rw [harith, hlist]

/-- **C6** — `download_with_retry` enters the download at most `retries`
times (default budget `defaultRetries = 5`); every sleep between attempts
lasts exactly one second; only transport errors are retried, any other
exception escaping after the attempt that raised it; and when every attempt
in the budget fails with a transport error the loop raises the fatal
`RuntimeError` naming the url. -/
theorem download_with_retry_spec (net : Nat → String → Except PyErr Response)
    (url path : String) (retries : Nat) (s : DlState) (k : Nat) (e : PyErr) :
    (downloadWithRetry net url path retries s).trace.attempts ≤ retries ∧
    defaultRetries = 5 ∧
    (∀ d ∈ (downloadWithRetry net url path retries s).trace.sleeps, d = 1) ∧
    (0 < retries → (∀ i, i < retries → ∃ m, net i url = .error (.requestError m)) →
      downloadWithRetry net url path retries s =
        .err (.runtimeError ("Failed downloading " ++ url ++ " - retry limit exceeded"))
          { attempts := retries, sleeps := List.replicate (retries - 1) 1 }) ∧
    (k < retries → (∀ i, i < k → ∃ m, net i url = .error (.requestError m)) →
      net k url = .error e → e.isRequestError = false →
      downloadWithRetry net url path retries s =
        .err e { attempts := k + 1, sleeps := List.replicate k 1 }) := by
  refine ⟨?_, rfl, ?_, ?_, ?_⟩
  · have := downloadWithRetryGo_attempts_le net url path retries retries 0
      { s with fetchCalls := s.fetchCalls + 1 } { attempts := 0, sleeps := [] } (by omega)
    simpa [downloadWithRetry] using this
  · intro d hd
    have := downloadWithRetryGo_sleeps net url path retries retries 0
      { s with fetchCalls := s.fetchCalls + 1 } { attempts := 0, sleeps := [] } (by omega)
      d (by simpa [downloadWithRetry] using hd)
    simpa using this
  · intro hpos hfail
    have := downloadWithRetryGo_exhaust net url path retries retries 0
      { s with fetchCalls := s.fetchCalls + 1 } { attempts := 0, sleeps := [] } (by omega)
      hpos (fun i _ hi2 => hfail i hi2)
    simpa [downloadWithRetry] using this
  · intro hk hfail hke hnre
    have := downloadWithRetryGo_propagate net url path retries e k 0
      { s with fetchCalls := s.fetchCalls + 1 } { attempts := 0, sleeps := [] }
      (by omega) (fun i _ hi2 => hfail i (by omega)) (by simpa using hke) hnre
    simpa [downloadWithRetry] using this

/-- Witness for C6: with every attempt failing on a transport error and the
default budget of 5, the loop makes 5 attempts, sleeps four single seconds,
and raises the retry-limit error naming the url. -/
theorem download_with_retry_spec_witness :
    downloadWithRetry netFailIdx "http://u" "dest" defaultRetries fsEmpty =
      .err (.runtimeError ("Failed downloading " ++ "http://u" ++ " - retry limit exceeded"))
        { attempts := 5, sleeps := List.replicate 4 1 } ∧
    downloadWithRetry netOtherIdx "http://u" "dest" defaultRetries fsEmpty =
      .err (.valueError "denied") { attempts := 0 + 1, sleeps := List.replicate 0 1 } :=
  ⟨(download_with_retry_spec netFailIdx "http://u" "dest" defaultRetries fsEmpty 0
      .indexError).2.2.2.1 (by decide) (fun i _ => ⟨"boom", rfl⟩),
   (download_with_retry_spec netOtherIdx "http://u" "dest" defaultRetries fsEmpty 0
      (.valueError "denied")).2.2.2.2 (by decide) (fun i hi => absurd hi (by omega)) rfl rfl⟩

/-- Sorting by case name is invariant under permutations of a record list
with distinct names. -/
theorem sortCasesByName_perm_eq (l1 l2 : List CaseMeta) (hperm : l1.Perm l2)
    (hnodup : (l1.map CaseMeta.name).Nodup) :
    sortCasesByName l1 = sortCasesByName l2 := by
  haveI : IsAntisymm CaseMeta (fun a b : CaseMeta => a.name < b.name) :=
    ⟨fun a b hab hba => absurd hab (not_lt.mpr (le_of_lt hba))⟩
  have key : ∀ l : List CaseMeta, (l.map CaseMeta.name).Nodup →
      (sortCasesByName l).Pairwise (fun a b : CaseMeta => a.name < b.name) := by
    intro l hn
    have hs : (sortCasesByName l).Pairwise caseNameLe :=
      List.sorted_insertionSort caseNameLe l
    have hnd : ((sortCasesByName l).map CaseMeta.name).Nodup := by
      have hp : ((sortCasesByName l).map CaseMeta.name).Perm (l.map CaseMeta.name) :=
        (List.perm_insertionSort caseNameLe l).map CaseMeta.name
      exact hp.nodup_iff.mpr hn
    have hpne : (sortCasesByName l).Pairwise (fun a b : CaseMeta => a.name ≠ b.name) :=
      List.pairwise_map.mp hnd
    exact (hs.and hpne).imp fun h => lt_of_le_of_ne h.1 h.2
  have hn2 : (l2.map CaseMeta.name).Nodup := (hperm.map CaseMeta.name).nodup_iff.mp hnodup
  have hptot : (sortCasesByName l1).Perm (sortCasesByName l2) :=
    ((List.perm_insertionSort caseNameLe l1).trans hperm).trans
      (List.perm_insertionSort caseNameLe l2).symm
  exact List.eq_of_perm_of_sorted hptot (key l1 hnodup) (key l2 hn2)

/-- **C7** — Two runs that collected the same set of case records (distinct
names) in any completion order persist byte-for-byte identical manifests:
`_write_testdata_json` sorts by case name before serializing, so the written
bytes depend only on the set of records, not on arrival order. -/
theorem write_testdata_json_deterministic (s1 s2 : OrchState)
    (hperm : s1.casesDescription.Perm s2.casesDescription)
    (hnodup : (s1.casesDescription.map CaseMeta.name).Nodup) :
    (write_testdata_json s1).written = (write_testdata_json s2).written := by
  simp [write_testdata_json, sortCasesByName_perm_eq _ _ hperm hnodup]

/-- Witness for C7: the two record orders of the fixture states produce the
same written manifest. -/
theorem write_testdata_json_deterministic_witness :
    (write_testdata_json orchS).written = (write_testdata_json orchSRev).written :=
  write_testdata_json_deterministic orchS orchSRev (List.Perm.swap metaB metaA [])
    (by decide)

/-- Unfolding of `orchestrate_step3` when some requested case already has a
manifest record. -/
theorem orchestrate_step3_eq_of_nonempty (validate : GadgetronTestCase → Except String Unit)
    (s : OrchState) (cases : List GadgetronTestCase)
    (h : ¬ (cases.filter fun c2 =>
      decide (c2.name ∈ s.casesDescription.map CaseMeta.name)).isEmpty = true) :
    orchestrate_step3 validate s cases =
      (s.casesDescription.filter (fun m => !decide (m.name ∈
          ((validate_existing_cases validate s.dataDir s.dirs
            (cases.filter fun c2 => decide (c2.name ∈ s.casesDescription.map CaseMeta.name))).1.map
            GadgetronTestCase.name))),
        (validate_existing_cases validate s.dataDir s.dirs
          (cases.filter fun c2 => decide (c2.name ∈ s.casesDescription.map CaseMeta.name))).2,
        (cases.filter fun c2 => !decide (c2.name ∈ s.casesDescription.map CaseMeta.name)) ++
          (validate_existing_cases validate s.dataDir s.dirs
            (cases.filter fun c2 => decide (c2.name ∈ s.casesDescription.map CaseMeta.name))).1) := by
  simp only [orchestrate_step3, h, Bool.false_eq_true, if_false]

/-- **C2** — A case with a manifest record whose validation task raises is
removed from the manifest (no record with its name survives), its case
directory is no longer among the directories on disk, and it joins the
cases to download and regenerate in the same run; a case whose validation
succeeds keeps its manifest record. -/
theorem orchestrate_step3_spec (validate : GadgetronTestCase → Except String Unit)
    (s : OrchState) (cases : List GadgetronTestCase) (c : GadgetronTestCase) (e : String)
    (hnames : (cases.map GadgetronTestCase.name).Nodup)
    (hc : c ∈ cases) (hex : c.name ∈ s.casesDescription.map CaseMeta.name) :
    (validate c = .error e →
      (∀ m ∈ (orchestrate_step3 validate s cases).1, m.name ≠ c.name) ∧
      generate_case_dir s.dataDir c ∉ (orchestrate_step3 validate s cases).2.1 ∧
      c ∈ (orchestrate_step3 validate s cases).2.2) ∧
    (∀ u, validate c = .ok u →
      ∀ m ∈ s.casesDescription, m.name = c.name →
        m ∈ (orchestrate_step3 validate s cases).1) := by
  have hctv : c ∈ cases.filter fun c2 =>
      decide (c2.name ∈ s.casesDescription.map CaseMeta.name) :=
    List.mem_filter.mpr ⟨hc, by simpa using hex⟩
  have hnottrue : ¬ (cases.filter fun c2 =>
      decide (c2.name ∈ s.casesDescription.map CaseMeta.name)).isEmpty = true := by
    intro h
    rw [List.isEmpty_iff] at h
    rw [h] at hctv
    cases hctv
  rw [orchestrate_step3_eq_of_nonempty validate s cases hnottrue]
  constructor
  · intro hval
    have hfailed : c ∈ (validate_existing_cases validate s.dataDir s.dirs
        (cases.filter fun c2 =>
          decide (c2.name ∈ s.casesDescription.map CaseMeta.name))).1 := by
      apply List.mem_filter.mpr
      refine ⟨hctv, ?_⟩
      rw [hval]
    refine ⟨?_, ?_, ?_⟩
    · intro m hm heq
      have hpred := (List.mem_filter.mp hm).2
      simp only [Bool.not_eq_eq_eq_not, Bool.not_true, decide_eq_false_iff_not] at hpred
      exact hpred (heq ▸ List.mem_map_of_mem GadgetronTestCase.name hfailed)
    · intro hmem
      have hall := (List.mem_filter.mp hmem).2
      rw [List.all_eq_true] at hall
      have := hall c hfailed
      simp at this
    · exact List.mem_append.mpr (Or.inr hfailed)
  · intro u hval m hmem hname
    apply List.mem_filter.mpr
    refine ⟨hmem, ?_⟩
    simp only [Bool.not_eq_eq_eq_not, Bool.not_true, decide_eq_false_iff_not]
    intro hmm
    obtain ⟨c2, hc2f, hc2name⟩ := List.mem_map.mp hmm
    have hc2tv := (List.mem_filter.mp hc2f).1
    have hc2pred := (List.mem_filter.mp hc2f).2
    have hc2cases : c2 ∈ cases := (List.mem_filter.mp hc2tv).1
    have hc2eqc : c2 = c :=
      List.inj_on_of_nodup_map hnames hc2cases hc (by rw [hc2name, hname])
    rw [hc2eqc, hval] at hc2pred
    cases hc2pred

/-- Witness for C2: in the fixture, validation fails on `a.cfg` and succeeds
on `b.cfg`; `a.cfg` loses its directory and is queued for regeneration while
`b.cfg` keeps its record. -/
theorem orchestrate_step3_spec_witness :
    generate_case_dir orchS.dataDir caseA ∉
      (orchestrate_step3 valFailA orchS [caseA, caseB]).2.1 ∧
    caseA ∈ (orchestrate_step3 valFailA orchS [caseA, caseB]).2.2 ∧
    metaB ∈ (orchestrate_step3 valFailA orchS [caseA, caseB]).1 := by
  have h := orchestrate_step3_spec valFailA orchS [caseA, caseB] caseA "bad checksum"
    (by decide) (by decide) (by decide)
  have h2 := orchestrate_step3_spec valFailA orchS [caseA, caseB] caseB "unused"
    (by decide) (by decide) (by decide)
  exact ⟨(h.1 rfl).2.1, (h.1 rfl).2.2, h2.2 () rfl metaB (by decide) rfl⟩

/-- Every case queued for download by step 3 comes from the requested
list. -/
theorem orchestrate_step3_toDownload_mem (validate : GadgetronTestCase → Except String Unit)
    (s : OrchState) (cases : List GadgetronTestCase) :
    ∀ c ∈ (orchestrate_step3 validate s cases).2.2, c ∈ cases := by
  intro c hmem
  simp only [orchestrate_step3] at hmem
  split at hmem
  · exact (List.mem_filter.mp hmem).1
  · rcases List.mem_append.mp hmem with h | h
    · exact (List.mem_filter.mp h).1
    · exact (List.mem_filter.mp (List.mem_filter.mp h).1).1

/-- **C1 counterexample** — With an empty manifest and one requested case
whose generation task raises, `orchestrate_conversion` ends in the
aggregate `RuntimeError`: the exception escapes before
`_write_testdata_json`, so no manifest is written in that run. -/
theorem orchestrate_conversion_counterexample :
    orchestrate_conversion valOk genFail true orchEmpty [caseA] =
      .error "Failed to convert all test cases" := by
  rfl

/-- **C1 (amended)** — The manifest write still runs after validation
failures in step 3: whatever the validator does, when every requested case
generates successfully the run ends with `testdata.json` written from
whatever the description then holds.  But a fatal aggregate error from the
generation batch in step 4 escapes `orchestrate_conversion` before step 5,
so the write does not run and progress from that run is not persisted. -/
theorem orchestrate_conversion_write_spec
    (validate : GadgetronTestCase → Except String Unit)
    (generate : GadgetronTestCase → Except String CaseMeta)
    (s : OrchState) (cases : List GadgetronTestCase) (c : GadgetronTestCase) :
    ((∀ c2 ∈ cases, ((generate c2).toOption).isSome) →
      ∃ u, orchestrate_conversion validate generate true s cases = .ok u ∧
        u.written = some (serializeManifest u.casesDescription)) ∧
    (c ∈ cases → c.name ∉ s.casesDescription.map CaseMeta.name →
      (generate c).toOption = none →
      orchestrate_conversion validate generate true s cases =
        .error "Failed to convert all test cases") := by
  constructor
  · intro hgen
    by_cases hemp : (orchestrate_step3 validate s cases).2.2.isEmpty = true
    · refine ⟨write_testdata_json { s with
        casesDescription := (orchestrate_step3 validate s cases).1
        dirs := (orchestrate_step3 validate s cases).2.1 }, ?_, rfl⟩
      simp only [orchestrate_conversion, hemp, if_true]
    · have hany : ((orchestrate_step3 validate s cases).2.2.any
          fun c2 => ((generate c2).toOption).isNone) = false := by
        rw [List.any_eq_false]
        intro x hx hcontra
        have hsome := hgen x (orchestrate_step3_toDownload_mem validate s cases x hx)
        rw [Option.isNone_iff_eq_none] at hcontra
        rw [hcontra] at hsome
        cases hsome
      have hconv : convert_cases generate (orchestrate_step3 validate s cases).1
          (orchestrate_step3 validate s cases).2.2 =
          .ok ((orchestrate_step3 validate s cases).1 ++
            (orchestrate_step3 validate s cases).2.2.filterMap
              fun c2 => (generate c2).toOption) := by
        simp [convert_cases, hany]
      refine ⟨write_testdata_json { s with
        casesDescription := (orchestrate_step3 validate s cases).1 ++
          (orchestrate_step3 validate s cases).2.2.filterMap fun c2 => (generate c2).toOption
        dirs := (orchestrate_step3 validate s cases).2.1 }, ?_, rfl⟩
      simp only [orchestrate_conversion, hemp, Bool.false_eq_true, if_false, if_true, hconv]
  · intro hcmem hnex hgenc
    have hctd : c ∈ (orchestrate_step3 validate s cases).2.2 := by
      have hfilt : c ∈ cases.filter fun c2 =>
          !decide (c2.name ∈ s.casesDescription.map CaseMeta.name) :=
        List.mem_filter.mpr ⟨hcmem, by simpa using hnex⟩
      simp only [orchestrate_step3]
      split
      · exact hfilt
      · exact List.mem_append.mpr (Or.inl hfilt)
    have hemp : ¬ (orchestrate_step3 validate s cases).2.2.isEmpty = true := by
      intro h
      rw [List.isEmpty_iff] at h
      rw [h] at hctd
      cases hctd
    have hany : ((orchestrate_step3 validate s cases).2.2.any
        fun c2 => ((generate c2).toOption).isNone) = true := by
      rw [List.any_eq_true]
      exact ⟨c, hctd, by rw [hgenc]; rfl⟩
    have hconv : convert_cases generate (orchestrate_step3 validate s cases).1
        (orchestrate_step3 validate s cases).2.2 =
        .error "Failed to convert all test cases" := by
      simp [convert_cases, hany]
    simp only [orchestrate_conversion, hemp, Bool.false_eq_true, if_false, if_true, hconv]

/-- Witness for C1 (amended): with validation failing on `a.cfg` but every
generation succeeding, the run completes and a manifest is written; and a
case absent from the manifest whose generation raises makes the whole run
end in the aggregate error. -/
theorem orchestrate_conversion_write_spec_witness :
    (orchestrate_conversion valFailA genOk true orchS [caseA, caseB]).isOk = true ∧
    orchestrate_conversion valOk genFail true orchS [caseC] =
      .error "Failed to convert all test cases" := by
  constructor
  · obtain ⟨u, hu, -⟩ :=
      (orchestrate_conversion_write_spec valFailA genOk orchS [caseA, caseB] caseA).1
        (by decide)
    rw [hu]
    rfl
  · exact (orchestrate_conversion_write_spec valOk genFail orchS [caseC] caseC).2
      (by decide) (by decide) rfl

end Tyger
